import Mathlib

/-!
Verification development for the vet-clinic API gateway request pipeline
(src/api_gateway/main.py).  The gateway's core components are shallowly
embedded as executable Lean functions: the fixed-window rate limiter backed
by a shared key/value store, the token verifier with its shared cache, the
reverse proxy's failure classification, the middleware that attaches
tracing headers, the health-check probe, the dashboard fan-out aggregator,
and the websocket connection registry.  Strings are modelled as lists of
characters; the shared cache is modelled as a function from keys to
optional entries together with an explicit availability flag where a claim
depends on cache outages; per-request time is an explicit natural-number
parameter.
-/

namespace VetGateway

/-- Strings of the source program, modelled as character lists so that every
definition evaluates inside the kernel. -/
abbrev Str := List Char

/-- The literal prefix removed from Authorization header values
(main.py line 76: token.replace with the Bearer pattern). -/
def bearerTag : Str := ("Bearer ").toList

/-- Key prefix for cached token identities (main.py lines 79 and 93). -/
def tokenKeyTag : Str := ("token:").toList

/-- Key prefix for rate-limit counters (main.py line 55). -/
def rateKeyTag : Str := ("rate_limit:").toList

/-- Error annotation written by the dashboard aggregator (main.py line 299). -/
def dashboardErrMsg : Str := ("Error fetching some dashboard data").toList

/-- Health status literal (main.py lines 117 and 132). -/
def healthyStr : Str := ("healthy").toList

/-- Health status literal for a failing probe (main.py lines 117 and 123). -/
def unhealthyStr : Str := ("unhealthy").toList

/-- Aggregate health status when some probe fails (main.py line 132). -/
def degradedStr : Str := ("degraded").toList

/-- Body detail of the 429 rejection (main.py line 147). -/
def rateLimitDetail : Str := ("Rate limit exceeded").toList

/-- Correlation-id response header name (main.py line 164). -/
def xRequestID : Str := ("X-Request-ID").toList

/-- Elapsed-time response header name (main.py line 165). -/
def xProcessTime : Str := ("X-Process-Time").toList

/-- Stands for the exception a shared-cache operation raises when the store
is unreachable; the python client raises a ConnectionError. -/
def redisConnErr : Str := ("Error connecting to redis").toList

/-- Message of the ValueError python raises when list.remove misses. -/
def valueErrorMsg : Str := ("x not in list").toList

/-- Detail fragments of the proxy error responses (main.py lines 174, 214, 216). -/
def svcPre : Str := ("Service ").toList

/-- Suffix of the 404 detail for an unknown service (main.py line 174). -/
def svcNotFound : Str := (" not found").toList

/-- Prefix of the 504 detail for an upstream timeout (main.py line 213). -/
def timeoutPre : Str := ("Timeout calling ").toList

/-- Suffix of the 503 detail for an unreachable upstream (main.py line 216). -/
def svcUnavail : Str := (" unavailable").toList

/-- The static route table SERVICES of main.py lines 23 to 31: service name
to base URL, fixed at startup. -/
def SERVICES : List (Str × Str) :=
  [ (("auth").toList, ("http://auth-service:8001").toList),
    (("clients").toList, ("http://clients-pets-service:8002").toList),
    (("appointments").toList, ("http://appointments-service:8003").toList),
    (("medical").toList, ("http://medical-records-service:8004").toList),
    (("billing").toList, ("http://billing-service:8005").toList),
    (("notifications").toList, ("http://notifications-service:8006").toList),
    (("employees").toList, ("http://employees-service:8007").toList) ]

/-! ### RateLimiter (main.py lines 47 to 65) -/

/-- One rate counter as stored in the shared cache: the current count and
the absolute time at which the key expires (redis EXPIRE semantics). -/
structure CounterEntry where
  count : Nat
  expiresAt : Nat
deriving DecidableEq

/-- The RateLimiter configuration of main.py line 48: defaults 100 requests
per 3600 second window. -/
structure RateLimiter where
  maxRequests : Nat := 100
  window : Nat := 3600
deriving DecidableEq

/-- The module-level limiter instance, main.py line 65: built with the
default parameters. -/
def rate_limiter : RateLimiter := {}

/-- The shared cache keyspace seen by the rate limiter: a key is live
exactly when it maps to an entry whose expiry lies in the future. -/
abbrev RedisStore := Str → Option CounterEntry

/-- A store with no keys. -/
def emptyStore : RedisStore := fun _ => none

/-- The rate-limit key for an identifier, main.py line 55. -/
def rateLimitKey (identifier : Str) : Str := rateKeyTag ++ identifier

/-- Combined effect on one key of the INCR plus EXPIRE pipeline of main.py
lines 56 to 59: an absent or expired key restarts at count one, a live key
is incremented; the expiry is reset to now plus the window either way.  The
resulting count is what INCR returns as result zero of the pipeline. -/
def incrExpire (entry : Option CounterEntry) (now w : Nat) : CounterEntry :=
  match entry with
  | some e => if now < e.expiresAt then ⟨e.count + 1, now + w⟩ else ⟨1, now + w⟩
  | none => ⟨1, now + w⟩

/-- RateLimiter.is_allowed, main.py lines 53 to 63: increment the counter,
reset its expiry, and allow the request exactly when the post-increment
count is at most maxRequests.  Returns the decision and the updated store. -/
def is_allowed (rl : RateLimiter) (store : RedisStore) (identifier : Str)
    (now : Nat) : Bool × RedisStore :=
  let entry := incrExpire (store (rateLimitKey identifier)) now rl.window
  (decide (entry.count ≤ rl.maxRequests),
   fun k => if k = rateLimitKey identifier then some entry else store k)

/-- is_allowed including the shared-store availability: the body of
main.py lines 53 to 63 contains no exception handler, so when the store is
unreachable the pipeline call raises and the exception escapes is_allowed;
the error branch models that escaping exception. -/
def is_allowed_total (rl : RateLimiter) (redisUp : Bool) (store : RedisStore)
    (identifier : Str) (now : Nat) : Except Str (Bool × RedisStore) :=
  if redisUp then .ok (is_allowed rl store identifier now)
  else .error redisConnErr

/-- Test harness: run is_allowed once per listed time for one identifier,
threading the store, and collect the decisions in order. -/
def runAtTimes (rl : RateLimiter) (identifier : Str) :
    List Nat → RedisStore → List Bool
  | [], _ => []
  | t :: ts, store =>
      (is_allowed rl store identifier t).1 ::
        runAtTimes rl identifier ts ((is_allowed rl store identifier t).2)

/-- Each listed time falls before the deadline inherited from the previous
call, so the whole trace stays inside one rolling window: the first time
must precede the given deadline, and every call pushes the deadline to its
own time plus the window. -/
def chainedTimes (w : Nat) : Nat → List Nat → Bool
  | _, [] => true
  | deadline, t :: ts => decide (t < deadline) && chainedTimes w (t + w) ts

/-- The decision sequence produced by n consecutive in-window calls whose
counter currently reads c: call i sees post-increment count c + i + 1. -/
def decisionsFrom (m : Nat) : Nat → Nat → List Bool
  | _, 0 => []
  | c, n + 1 => decide (c + 1 ≤ m) :: decisionsFrom m (c + 1) n

/-- Identifier used in concrete scenarios. -/
def clientC : Str := ("c").toList

/-- A store in which clientC has already spent the whole default quota and
the counter is still live at time zero. -/
def exhaustedStore : RedisStore :=
  fun k => if k = rateLimitKey clientC then some ⟨100, 1⟩ else none

/-! ### TokenVerifier (main.py lines 68 to 99) -/

/-- Python str.replace of the Bearer tag with the empty string, main.py
line 76: one left-to-right pass removing every non-overlapping occurrence
of the seven-character pattern, not only a leading prefix. -/
def removeBearer : Str → Str
  | 'B' :: 'e' :: 'a' :: 'r' :: 'e' :: 'r' :: ' ' :: rest => removeBearer rest
  | c :: rest => c :: removeBearer rest
  | [] => []

/-- Comparison definition following the spec wording of stripping a known
leading prefix only: remove one occurrence of the Bearer tag at the front
when present and leave the rest of the credential untouched. -/
def stripLeadingBearerOnly (s : Str) : Str :=
  if bearerTag.isPrefixOf s then s.drop bearerTag.length else s

/-- The identity record the auth service returns; its fields are opaque to
the gateway, so a single opaque payload models it. -/
structure UserData where
  payload : Nat
deriving DecidableEq

/-- A sample identity. -/
def someUser : UserData := ⟨1⟩

/-- Cache key for a stripped token, main.py lines 79 and 93. -/
def tokenCacheKey (token : Str) : Str := tokenKeyTag ++ token

/-- Observable outcome of one verify_token call: the returned identity, the
key handed to the shared-cache lookup, whether the upstream auth service
was contacted, the Authorization header sent upstream, and the cache write
performed on upstream success as key, ttl seconds and value. -/
structure VerifyOutcome where
  result : Option UserData
  cacheKeyQueried : Option Str
  calledUpstream : Bool
  upstreamAuthHeader : Option Str
  cacheWrite : Option (Str × Nat × UserData)
deriving DecidableEq

/-- verify_token, main.py lines 68 to 99.  A missing header returns none.
Otherwise every occurrence of the Bearer tag is removed from the header
value, the shared cache is consulted under token:<stripped>; a hit returns
the cached identity with no upstream call.  On a miss the auth service is
called with the stripped value as bearer credential: status 200 stores the
identity under the same key with a fixed ttl of 600 seconds and returns it;
any other status returns none.  The whole body sits in one try block whose
except clause returns none, so when the shared cache is unreachable the
raised exception is swallowed and the function returns none without ever
reaching the upstream call; an upstream transport exception likewise lands
in the except clause and yields none. -/
def verify_token (authHeader : Option Str) (redisUp : Bool)
    (cache : Str → Option UserData) (upstreamRaises : Bool)
    (upstreamStatus : Nat) (upstreamUser : UserData) : VerifyOutcome :=
  match authHeader with
  | none => ⟨none, none, false, none, none⟩
  | some raw =>
      let token := removeBearer raw
      if redisUp then
        match cache (tokenCacheKey token) with
        | some u => ⟨some u, some (tokenCacheKey token), false, none, none⟩
        | none =>
            if upstreamRaises then
              ⟨none, some (tokenCacheKey token), true,
                some (bearerTag ++ token), none⟩
            else if upstreamStatus = 200 then
              ⟨some upstreamUser, some (tokenCacheKey token), true,
                some (bearerTag ++ token),
                some (tokenCacheKey token, 600, upstreamUser)⟩
            else
              ⟨none, some (tokenCacheKey token), true,
                some (bearerTag ++ token), none⟩
      else
        ⟨none, some (tokenCacheKey token), false, none, none⟩

/-- Redis SETEX liveness: a key stored at storedAt with the given ttl is
still retrievable at time t exactly when t precedes storedAt plus ttl. -/
def setexLiveAt (storedAt ttl t : Nat) : Bool := decide (t < storedAt + ttl)

/-- A concrete Authorization header value. -/
def bearerTok : Str := ("Bearer tok").toList

/-! ### DashboardAggregator (main.py lines 265 to 302) -/

/-- Outcome of one upstream dashboard call: a response with a status code
and an opaque body, or a raised transport exception. -/
inductive UpstreamCall where
  | responds (statusCode : Nat) (body : Nat)
  | raises
deriving DecidableEq

/-- The summary dictionary built by dashboard_summary: one optional field
per upstream plus the aggregate error annotation. -/
structure Summary where
  todays_appointments : Option Nat := none
  pending_invoices : Option Nat := none
  pending_notifications : Option Nat := none
  error : Option Str := none
deriving DecidableEq

/-- dashboard_summary, main.py lines 265 to 302: the three upstream calls
(appointments, billing, notifications) are issued sequentially inside one
try block.  A response populates its field only when its status is 200; a
raised exception jumps to the single except clause, which records the error
annotation — skipping every call after the one that raised. -/
def dashboard_summary (appointments billing notifications : UpstreamCall) :
    Summary :=
  match appointments with
  | .raises => { error := some dashboardErrMsg }
  | .responds aCode aBody =>
      let s1 : Summary :=
        if aCode = 200 then { todays_appointments := some aBody } else {}
      match billing with
      | .raises => { s1 with error := some dashboardErrMsg }
      | .responds bCode bBody =>
          let s2 : Summary :=
            if bCode = 200 then { s1 with pending_invoices := some bBody }
            else s1
          match notifications with
          | .raises => { s2 with error := some dashboardErrMsg }
          | .responds nCode nBody =>
              if nCode = 200 then
                { s2 with pending_notifications := some nBody }
              else s2

/-! ### ProxyEngine (main.py lines 171 to 216) -/

/-- Transport-level outcome of the forwarded call: an upstream response
with a status code, a raised timeout exception, or any other raised
transport exception (the request-error class). -/
inductive TransportOutcome where
  | success (statusCode : Nat)
  | timeoutExc
  | requestError
deriving DecidableEq

/-- What proxy_request hands back to the pipeline: a reshaped upstream
response, or an http error with a status and a detail message. -/
inductive ProxyResult where
  | forwarded (statusCode : Nat)
  | httpError (statusCode : Nat) (detail : Str)
deriving DecidableEq

/-- Lookup of a service name in the static route table. -/
def serviceLookup (name : Str) : Option Str := SERVICES.lookup name

/-- proxy_request, main.py lines 171 to 216: an unknown service name raises
a 404 naming the service before any call is made; otherwise the upstream
response is reshaped with its own status code, a raised timeout surfaces as
a 504 naming the service, and any other transport error surfaces as a 503
naming the service. -/
def proxy_request (serviceName : Str) (outcome : TransportOutcome) :
    ProxyResult :=
  match serviceLookup serviceName with
  | none => .httpError 404 (svcPre ++ serviceName ++ svcNotFound)
  | some _ =>
      match outcome with
      | .success st => .forwarded st
      | .timeoutExc => .httpError 504 (timeoutPre ++ serviceName)
      | .requestError => .httpError 503 (svcPre ++ serviceName ++ svcUnavail)

/-! ### RequestPipeline middleware (main.py lines 138 to 168) -/

/-- A client-facing response: status, response headers in order, and the
optional json detail body. -/
structure HttpResponse where
  statusCode : Nat
  headers : List (Str × Str)
  detail : Option Str := none
deriving DecidableEq

/-- logging_and_rate_limit_middleware, main.py lines 138 to 168: every
inbound request first passes the rate limiter; a denial returns the 429
JSONResponse immediately — built with no extra headers — while an allowed
request runs the inner handler and then appends the correlation-id and
process-time headers to the inner response. -/
def logging_and_rate_limit_middleware (store : RedisStore) (identifier : Str)
    (now : Nat) (requestId processTime : Str) (inner : HttpResponse) :
    HttpResponse × RedisStore :=
  let r := is_allowed rate_limiter store identifier now
  if r.1 then
    ({ inner with
        headers := inner.headers ++
          [(xRequestID, requestId), (xProcessTime, processTime)] }, r.2)
  else
    ({ statusCode := 429, headers := [], detail := some rateLimitDetail }, r.2)

/-! ### Health check (main.py lines 108 to 135) -/

/-- Outcome of probing one backend: a response with status code and elapsed
time, or a raised exception with its message. -/
inductive ProbeOutcome where
  | responds (statusCode : Nat) (elapsed : Nat)
  | raises (err : Str)
deriving DecidableEq

/-- Per-service health entry as built in main.py lines 115 to 127. -/
structure ServiceHealth where
  status : Str
  statusCode : Option Nat := none
  responseTime : Option Nat := none
  error : Option Str := none
deriving DecidableEq

/-- The entry built for one probe outcome: a 200 response is healthy, any
other status is unhealthy with its code, an exception is unhealthy with the
error message. -/
def probeEntry : ProbeOutcome → ServiceHealth
  | .responds st el =>
      { status := if st = 200 then healthyStr else unhealthyStr,
        statusCode := some st, responseTime := some el }
  | .raises e => { status := unhealthyStr, error := some e }

/-- The aggregate health report of main.py lines 129 to 135. -/
structure HealthReport where
  status : Str
  services : List (Str × ServiceHealth)
deriving DecidableEq

/-- health_check, main.py lines 108 to 135: probe every configured service,
record a per-service entry, and report healthy exactly when every entry is
healthy, degraded otherwise. -/
def health_check (probe : Str → ProbeOutcome) : HealthReport :=
  let sh := SERVICES.map (fun p => (p.1, probeEntry (probe p.1)))
  { status :=
      if sh.all (fun q => decide (q.2.status = healthyStr)) then healthyStr
      else degradedStr,
    services := sh }

/-- What handling a request to the health route produces, together with
which pipeline components ran. -/
structure HealthRequestResult where
  statusCode : Nat
  body : Option HealthReport
  rateLimiterInvoked : Bool
  verifyInvoked : Bool
  proxyInvoked : Bool
deriving DecidableEq

/-- One GET of the health route through the application: the http
middleware of main.py line 138 wraps every route, the health route
included, so the rate limiter always runs first; a denial returns the 429
without probing, an allowed request runs health_check.  The route has no
authentication dependency and performs no proxying. -/
def handle_health (store : RedisStore) (identifier : Str) (now : Nat)
    (probe : Str → ProbeOutcome) : HealthRequestResult :=
  let r := is_allowed rate_limiter store identifier now
  if r.1 then
    { statusCode := 200, body := some (health_check probe),
      rateLimiterInvoked := true, verifyInvoked := false,
      proxyInvoked := false }
  else
    { statusCode := 429, body := none,
      rateLimiterInvoked := true, verifyInvoked := false,
      proxyInvoked := false }

/-- The probe in which every backend answers 200. -/
def probeAll200 : Str → ProbeOutcome := fun _ => .responds 200 1

/-! ### ConnectionRegistry (main.py lines 308 to 337) -/

/-- ConnectionManager.disconnect, main.py lines 316 to 317: python
list.remove deletes the first occurrence of the handle and raises a
ValueError when the handle is absent.  Connections are identified by
opaque numeric handles. -/
def disconnect (conns : List Nat) (ws : Nat) : Except Str (List Nat) :=
  if ws ∈ conns then .ok (conns.erase ws) else .error valueErrorMsg

/-- One step of the broadcast loop of main.py lines 322 to 328, modelling
the python list iterator faithfully: the iterator keeps a position i into
the live list; each step reads the element now at position i, then advances
the position.  A failing write removes the element from the list in place
(shifting every later element down by one, so the element that was next is
skipped); a successful write appends the connection to the delivered list.
The fuel argument only bounds the recursion and is chosen large enough
never to run out. -/
def broadcastStep (failsOn : Nat → Bool) :
    Nat → Nat → List Nat → List Nat → List Nat × List Nat
  | 0, _, conns, delivered => (conns, delivered)
  | fuel + 1, i, conns, delivered =>
      match conns[i]? with
      | none => (conns, delivered)
      | some c =>
          if failsOn c then
            broadcastStep failsOn fuel (i + 1) (conns.erase c) delivered
          else
            broadcastStep failsOn fuel (i + 1) conns (delivered ++ [c])

/-- ConnectionManager.broadcast, main.py lines 322 to 328: iterate the live
list from the front, sending to each connection; a failed send prunes that
connection from the list during the same pass.  Returns the final live list
and the connections that received the message, in order. -/
def broadcast (failsOn : Nat → Bool) (conns : List Nat) :
    List Nat × List Nat :=
  broadcastStep failsOn (conns.length + 1) 0 conns []

/-! ### Concrete scenario data -/

/-- A concrete correlation id. -/
def rid0 : Str := ("req-1").toList

/-- A concrete elapsed-time header value. -/
def pt0 : Str := ("0.001").toList

/-- A plain inner response produced by a route handler. -/
def resp0 : HttpResponse := { statusCode := 200, headers := [] }

/-- A service name absent from the route table. -/
def unknownSvc : Str := ("payments").toList

/-- A service name present in the route table. -/
def billingSvc : Str := ("billing").toList

/-! ## Theorems -/

/-- Claim C1 counterexample: with exactly one of the three upstream calls
failing — the appointments call raises while billing and notifications
would both answer 200 — the returned summary carries only the error
annotation: the fields of the two successful calls are not populated,
because the shared try block skips every call after the one that raised. -/
theorem dashboard_first_failure_counterexample :
    (dashboard_summary .raises (.responds 200 5) (.responds 200 7)).error =
      some dashboardErrMsg ∧
    ¬ ((dashboard_summary .raises (.responds 200 5)
          (.responds 200 7)).pending_invoices = some 5 ∧
       (dashboard_summary .raises (.responds 200 5)
          (.responds 200 7)).pending_notifications = some 7) := by
  decide

/-- Claim C1 (amended): the three dashboard calls run sequentially inside
one try block, so only a transport failure of the last call leaves the
other two fields populated with an error annotation; a transport failure
of an earlier call records the error annotation but skips the remaining
calls, leaving their fields empty; a call that merely returns a non-200
status has its field omitted with no error annotation while the other
fields are still populated; in every case a summary object is returned
rather than an overall failure. -/
theorem dashboard_summary_partial_failure (b1 b2 b3 : Nat)
    (x y : UpstreamCall) :
    dashboard_summary .raises x y = { error := some dashboardErrMsg } ∧
    dashboard_summary (.responds 200 b1) .raises y =
      { todays_appointments := some b1, error := some dashboardErrMsg } ∧
    dashboard_summary (.responds 200 b1) (.responds 200 b2) .raises =
      { todays_appointments := some b1, pending_invoices := some b2,
        error := some dashboardErrMsg } ∧
    dashboard_summary (.responds 500 b1) (.responds 200 b2)
        (.responds 200 b3) =
      { pending_invoices := some b2, pending_notifications := some b3 } :=
  ⟨rfl, rfl, rfl, rfl⟩

/-- Claim C2 counterexample: with the shared cache unreachable at a
concrete input, the rate-limit check produces no allow decision at all
(the unhandled exception escapes is_allowed instead of failing open), and
token verification returns none without ever contacting the upstream auth
service — the opposite of the claimed fallback. -/
theorem cache_outage_counterexample :
    (is_allowed_total rate_limiter false emptyStore clientC 0).toOption =
      none ∧
    ¬ (verify_token (some bearerTok) false (fun _ => none) false 200
        someUser).calledUpstream = true ∧
    (verify_token (some bearerTok) false (fun _ => none) false 200
        someUser).result = none := by
  refine ⟨rfl, ?_, rfl⟩
  decide

/-- Claim C2 (amended): when an operation against the shared cache raises
a transient failure, the pipeline does not degrade as specified:
is_allowed contains no exception handler, so the failure escapes to the
caller instead of failing open, and verify_token's blanket except clause
swallows the failure and returns none — surfacing as an authentication
failure — without falling back to the upstream auth service. -/
theorem cache_outage_no_degradation (store : RedisStore) (id : Str)
    (now : Nat) (raw : Str) (cache : Str → Option UserData) (uR : Bool)
    (uS : Nat) (uU : UserData) :
    is_allowed_total rate_limiter false store id now = .error redisConnErr ∧
    (verify_token (some raw) false cache uR uS uU).result = none ∧
    (verify_token (some raw) false cache uR uS uU).calledUpstream = false :=
  ⟨rfl, rfl, rfl⟩

/-- Claim C3: evaluating broadcast at the failing input — live connections
10, 20 and 30 where the write to connection 10 fails — delivers the
message only to connection 30: the in-place removal of 10 shifts 20 under
the advancing iterator, so 20 is skipped and only one delivery happens
instead of the claimed two, although exactly connection 10 is removed from
the live set. -/
theorem broadcast_skips_after_failure :
    broadcast (fun c => decide (c = 10)) [10, 20, 30] = ([20, 30], [30]) ∧
    ¬ 20 ∈ (broadcast (fun c => decide (c = 10)) [10, 20, 30]).2 := by
  decide

/-- Claim C4 counterexample: the rate-limit rejection is built and
returned before the middleware attaches any headers, so the 429 response
carries neither the correlation-id header nor the elapsed-time header. -/
theorem rate_limited_response_headers_counterexample :
    (logging_and_rate_limit_middleware exhaustedStore clientC 0 rid0 pt0
        resp0).1.statusCode = 429 ∧
    (logging_and_rate_limit_middleware exhaustedStore clientC 0 rid0 pt0
        resp0).1.headers = [] := by
  decide

/-- Claim C4 (amended): a response that passes the rate-limit check
carries both the correlation-id and the elapsed-time headers, appended to
the inner response's headers; the 429 rate-limit rejection carries no
headers at all. -/
theorem middleware_headers (store : RedisStore) (id : Str) (now : Nat)
    (rid pt : Str) (inner : HttpResponse) :
    ((is_allowed rate_limiter store id now).1 = true →
      (logging_and_rate_limit_middleware store id now rid pt inner).1 =
        { inner with headers := inner.headers ++
            [(xRequestID, rid), (xProcessTime, pt)] }) ∧
    ((is_allowed rate_limiter store id now).1 = false →
      (logging_and_rate_limit_middleware store id now rid pt inner).1 =
        { statusCode := 429, headers := [],
          detail := some rateLimitDetail }) := by
  constructor <;> intro h <;>
    simp [logging_and_rate_limit_middleware, h]

/-- Witness for the amended C4 theorem at concrete inputs: an allowed
request gets both headers, an exhausted counter yields the bare 429. -/
theorem middleware_headers_witness :
    (logging_and_rate_limit_middleware emptyStore clientC 0 rid0 pt0
        resp0).1 =
      { resp0 with headers := resp0.headers ++
          [(xRequestID, rid0), (xProcessTime, pt0)] } ∧
    (logging_and_rate_limit_middleware exhaustedStore clientC 0 rid0 pt0
        resp0).1 =
      { statusCode := 429, headers := [],
        detail := some rateLimitDetail } :=
  ⟨(middleware_headers emptyStore clientC 0 rid0 pt0 resp0).1 (by decide),
   (middleware_headers exhaustedStore clientC 0 rid0 pt0 resp0).2
     (by decide)⟩

/-- Claim C9 counterexample: disconnecting an absent connection raises a
ValueError instead of being a no-op, so applying disconnect twice is not
the same as applying it once: the first removal of 7 from the singleton
registry succeeds, the second raises. -/
theorem disconnect_absent_raises_counterexample :
    disconnect ([] : List Nat) 7 = .error valueErrorMsg ∧
    disconnect [7] 7 = .ok [] ∧
    (Except.error valueErrorMsg : Except Str (List Nat)) ≠ .ok [] := by
  refine ⟨by simp [disconnect], by simp [disconnect], by simp⟩

/-- Claim C9 (amended): disconnect removes the first occurrence of a
present connection, but on an already-absent connection it raises a
ValueError rather than leaving the set unchanged without error; hence
disconnect is not idempotent — after removing the only occurrence, a
second disconnect of the same connection fails. -/
theorem disconnect_not_idempotent (conns : List Nat) (ws : Nat) :
    (ws ∈ conns → disconnect conns ws = .ok (conns.erase ws)) ∧
    (ws ∉ conns → disconnect conns ws = .error valueErrorMsg) ∧
    disconnect [ws] ws = .ok [] ∧
    disconnect ([] : List Nat) ws = .error valueErrorMsg := by
  refine ⟨fun h => ?_, fun h => ?_, ?_, ?_⟩ <;> simp [disconnect, *]

/-- Witness for the amended C9 theorem at concrete inputs. -/
theorem disconnect_not_idempotent_witness :
    disconnect [7, 8] 7 = .ok [8] ∧
    disconnect [8] 7 = .error valueErrorMsg :=
  ⟨((disconnect_not_idempotent [7, 8] 7).1 (by decide)).trans rfl,
   (disconnect_not_idempotent [8] 7).2.1 (by decide)⟩

/-- Claim C5 counterexample: verifying a token whose remaining validity is
30 seconds stores the identity with ttl 600, not 30, and the entry is
still retrievable at time 31 — past the token's true expiry at time 30 —
so a cache hit after expiry is possible, contrary to the claim. -/
theorem token_cache_ttl_counterexample :
    (verify_token (some bearerTok) true (fun _ => none) false 200
        someUser).cacheWrite =
      some (tokenCacheKey (("tok").toList), 600, someUser) ∧
    (600 : Nat) ≠ 30 ∧
    setexLiveAt 0 600 31 = true ∧ (30 : Nat) < 31 := by
  decide

/-- Claim C5 (amended): every cache write performed by the verifier uses
the fixed ttl of 600 seconds regardless of the token's remaining validity,
so for any token whose remaining validity r satisfies r + 1 < 600 the
cached identity is still retrievable one second after the token's true
expiry. -/
theorem token_cache_fixed_ttl (raw : Str) (cache : Str → Option UserData)
    (uU : UserData) (k : Str) (ttl : Nat) (u : UserData) (t0 r : Nat) :
    ((verify_token (some raw) true cache false 200 uU).cacheWrite =
        some (k, ttl, u) → ttl = 600) ∧
    (r + 1 < 600 → setexLiveAt t0 600 (t0 + r + 1) = true) := by
  constructor
  · intro h
    cases hc : cache (tokenCacheKey (removeBearer raw)) with
    | some u' => simp [verify_token, hc] at h
    | none =>
        simp [verify_token, hc] at h
        exact h.2.1.symm
  · intro h
    simp only [setexLiveAt, decide_eq_true_eq]
    omega

/-- Witness for the amended C5 theorem: the concrete cache write of the
counterexample scenario indeed has ttl 600, and with 30 seconds of
remaining validity the entry is live at time 31. -/
theorem token_cache_fixed_ttl_witness :
    (600 : Nat) = 600 ∧ setexLiveAt 0 600 31 = true :=
  ⟨(token_cache_fixed_ttl bearerTok (fun _ => none) someUser
      (tokenCacheKey (("tok").toList)) 600 someUser 0 30).1 (by decide),
   (token_cache_fixed_ttl bearerTok (fun _ => none) someUser
      (tokenCacheKey (("tok").toList)) 600 someUser 0 30).2 (by decide)⟩

/-- Claim C7: the proxy's three failure kinds map to three distinct
client-visible statuses and are never confused: an unknown service name
yields a 404 whose detail names the service, an upstream timeout yields a
504 naming the service, any other transport failure yields a 503 naming
the service, and no failure kind ever produces a generic 500. -/
theorem proxy_failure_status_mapping (name : Str)
    (outcome : TransportOutcome) (d : Str) :
    (serviceLookup name = none →
      proxy_request name outcome =
        .httpError 404 (svcPre ++ name ++ svcNotFound)) ∧
    (serviceLookup name ≠ none →
      proxy_request name .timeoutExc =
        .httpError 504 (timeoutPre ++ name)) ∧
    (serviceLookup name ≠ none →
      proxy_request name .requestError =
        .httpError 503 (svcPre ++ name ++ svcUnavail)) ∧
    proxy_request name outcome ≠ .httpError 500 d := by
  refine ⟨fun h => ?_, fun h => ?_, fun h => ?_, ?_⟩
  · simp [proxy_request, h]
  · cases hl : serviceLookup name with
    | none => exact absurd hl h
    | some u => simp [proxy_request, hl]
  · cases hl : serviceLookup name with
    | none => exact absurd hl h
    | some u => simp [proxy_request, hl]
  · cases hl : serviceLookup name <;> cases outcome <;>
      simp [proxy_request, hl]

/-- Witness for the C7 theorem: an unknown service yields the 404, a known
service yields the 504 on timeout and the 503 on any other transport
failure, at concrete inputs. -/
theorem proxy_failure_status_mapping_witness :
    proxy_request unknownSvc .timeoutExc =
      .httpError 404 (svcPre ++ unknownSvc ++ svcNotFound) ∧
    proxy_request billingSvc .timeoutExc =
      .httpError 504 (timeoutPre ++ billingSvc) ∧
    proxy_request billingSvc .requestError =
      .httpError 503 (svcPre ++ billingSvc ++ svcUnavail) :=
  ⟨(proxy_failure_status_mapping unknownSvc .timeoutExc []).1 (by decide),
   (proxy_failure_status_mapping billingSvc .timeoutExc []).2.1 (by decide),
   (proxy_failure_status_mapping billingSvc .requestError []).2.2.1
     (by decide)⟩

/-- Claim C10: for every Authorization header value, the verifier's
effective token is the header with every occurrence of the Bearer pattern
removed — the cache key and the upstream Authorization header are both
built from this globally stripped value; removing the pattern at the front
agrees with a leading strip, but a credential containing the pattern in
its interior is altered, unlike under a mere leading-prefix strip. -/
theorem verify_token_global_bearer_strip (raw s : Str) (redisUp : Bool)
    (cache : Str → Option UserData) (uR : Bool) (uS : Nat) (uU : UserData) :
    (verify_token (some raw) redisUp cache uR uS uU).cacheKeyQueried =
      some (tokenCacheKey (removeBearer raw)) ∧
    ((verify_token (some raw) redisUp cache uR uS uU).calledUpstream =
        true →
      (verify_token (some raw) redisUp cache uR uS uU).upstreamAuthHeader =
        some (bearerTag ++ removeBearer raw)) ∧
    removeBearer (bearerTag ++ s) = removeBearer s ∧
    removeBearer (("Bearer xBearer y").toList) ≠
      stripLeadingBearerOnly (("Bearer xBearer y").toList) := by
  refine ⟨?_, ?_, rfl, by decide⟩
  · by_cases hs : uS = 200 <;>
      cases h : redisUp <;>
      cases hc : cache (tokenCacheKey (removeBearer raw)) <;>
      cases hr : uR <;>
      simp [verify_token, h, hc, hr, hs]
  · intro hcall
    cases h : redisUp with
    | false => simp [verify_token, h] at hcall
    | true =>
        cases hc : cache (tokenCacheKey (removeBearer raw)) with
        | some u' => simp [verify_token, h, hc] at hcall
        | none =>
            cases hr : uR with
            | true => simp [verify_token, h, hc, hr]
            | false =>
                by_cases hs : uS = 200 <;>
                  simp [verify_token, h, hc, hr, hs]

/-- Witness for the C10 theorem: at the header value containing the Bearer
pattern both at the front and in the interior, the cache key and upstream
header are built from the globally stripped credential. -/
theorem verify_token_global_bearer_strip_witness :
    (verify_token (some (("Bearer xBearer y").toList)) true (fun _ => none)
        false 200 someUser).cacheKeyQueried =
      some (tokenCacheKey (("xy").toList)) ∧
    (verify_token (some (("Bearer xBearer y").toList)) true (fun _ => none)
        false 200 someUser).upstreamAuthHeader =
      some (bearerTag ++ (("xy").toList)) :=
  ⟨((verify_token_global_bearer_strip (("Bearer xBearer y").toList) []
      true (fun _ => none) false 200 someUser).1).trans rfl,
   ((verify_token_global_bearer_strip (("Bearer xBearer y").toList) []
      true (fun _ => none) false 200 someUser).2.1 (by decide)).trans rfl⟩

/-- A trace of in-window calls starting from a live counter at count c
produces exactly the decisions of the successive post-increment counts. -/
theorem runAtTimes_live (rl : RateLimiter) (id : Str) (ts : List Nat) :
    ∀ (store : RedisStore) (c deadline : Nat),
      store (rateLimitKey id) = some ⟨c, deadline⟩ →
      chainedTimes rl.window deadline ts = true →
      runAtTimes rl id ts store =
        decisionsFrom rl.maxRequests c ts.length := by
  induction ts with
  | nil => intro store c deadline _ _; rfl
  | cons t ts ih =>
      intro store c deadline hstore hchain
      simp only [chainedTimes, Bool.and_eq_true, decide_eq_true_eq]
        at hchain
      obtain ⟨hlt, hrest⟩ := hchain
      have hentry : incrExpire (store (rateLimitKey id)) t rl.window =
          ⟨c + 1, t + rl.window⟩ := by
        rw [hstore]; simp [incrExpire, hlt]
      have hfst : (is_allowed rl store id t).1 =
          decide (c + 1 ≤ rl.maxRequests) := by
        simp [is_allowed, hentry]
      have hsnd : ((is_allowed rl store id t).2) (rateLimitKey id) =
          some ⟨c + 1, t + rl.window⟩ := by
        simp [is_allowed, hentry]
      show (is_allowed rl store id t).1 ::
          runAtTimes rl id ts ((is_allowed rl store id t).2) = _
      rw [hfst,
        ih ((is_allowed rl store id t).2) (c + 1) (t + rl.window) hsnd
          hrest]
      rfl

/-- Claim C6: the limiter's allow decision after incrementing the shared
counter is exactly the comparison of the post-increment count against
maxRequests; starting from an empty store, one hundred and one calls
chained inside one rolling window yield one hundred allowed decisions
followed by a denial; and once the counter's expiry has passed with no
traffic, the next call for that identifier is allowed again. -/
theorem rate_limiter_decision_spec :
    (∀ (store : RedisStore) (id : Str) (now : Nat),
      ((is_allowed rate_limiter store id now).1 = true ↔
        (incrExpire (store (rateLimitKey id)) now
            rate_limiter.window).count ≤ rate_limiter.maxRequests)) ∧
    (∀ (id : Str) (t0 : Nat) (ts : List Nat),
      chainedTimes rate_limiter.window (t0 + rate_limiter.window) ts =
        true →
      ts.length = 100 →
      runAtTimes rate_limiter id (t0 :: ts) emptyStore =
        List.replicate 100 true ++ [false]) ∧
    (∀ (store : RedisStore) (id : Str) (now c e : Nat),
      store (rateLimitKey id) = some ⟨c, e⟩ → e ≤ now →
      (is_allowed rate_limiter store id now).1 = true) := by
  refine ⟨fun store id now => ?_, fun id t0 ts hchain hlen => ?_,
    fun store id now c e hstore hle => ?_⟩
  · simp [is_allowed]
  · have h0 : (is_allowed rate_limiter emptyStore id t0).1 = true := rfl
    have hs1 : ((is_allowed rate_limiter emptyStore id t0).2)
        (rateLimitKey id) = some ⟨1, t0 + rate_limiter.window⟩ := by
      simp [is_allowed, incrExpire, emptyStore]
    show (is_allowed rate_limiter emptyStore id t0).1 ::
        runAtTimes rate_limiter id ts
          ((is_allowed rate_limiter emptyStore id t0).2) = _
    rw [h0,
      runAtTimes_live rate_limiter id ts
        ((is_allowed rate_limiter emptyStore id t0).2) 1
        (t0 + rate_limiter.window) hs1 hchain, hlen]
    decide
  · have hentry : incrExpire (store (rateLimitKey id)) now
        rate_limiter.window = ⟨1, now + rate_limiter.window⟩ := by
      rw [hstore]
      simp [incrExpire, Nat.not_lt.mpr hle]
    simp [is_allowed, hentry]
    decide

/-- Witness for the C6 theorem: one hundred and one calls for one client,
all one second apart, exhaust the default quota with exactly one hundred
allowed decisions and then a denial; and a counter whose expiry 3 has
passed at time 5 admits the next call. -/
theorem rate_limiter_decision_spec_witness :
    runAtTimes rate_limiter clientC (0 :: List.replicate 100 1)
        emptyStore = List.replicate 100 true ++ [false] ∧
    (is_allowed rate_limiter
        (fun k => if k = rateLimitKey clientC then some ⟨100, 3⟩ else none)
        clientC 5).1 = true :=
  ⟨rate_limiter_decision_spec.2.1 clientC 0 (List.replicate 100 1)
      (by decide) (by decide),
   rate_limiter_decision_spec.2.2
      (fun k => if k = rateLimitKey clientC then some ⟨100, 3⟩ else none)
      clientC 5 100 3 (by decide) (by decide)⟩

/-- A probe entry reads healthy exactly when the probe answered 200. -/
theorem probeEntry_healthy (o : ProbeOutcome) :
    (probeEntry o).status = healthyStr ↔
      ∃ el, o = .responds 200 el := by
  cases o with
  | responds st el =>
      by_cases h : st = 200
      · subst h
        simp [probeEntry]
      · simp [probeEntry, h,
          show unhealthyStr ≠ healthyStr from by decide]
  | raises e =>
      simp [probeEntry, show unhealthyStr ≠ healthyStr from by decide]

/-- Claim C8 counterexample: the http middleware wraps the health route
like every other route, so a health request does invoke the rate limiter —
with the default quota already spent, the health request is answered 429
and no backend is probed, contradicting the claimed bypass of pipeline
step one. -/
theorem health_rate_limited_counterexample :
    (handle_health exhaustedStore clientC 0
        probeAll200).rateLimiterInvoked = true ∧
    (handle_health exhaustedStore clientC 0 probeAll200).statusCode =
      429 := by
  decide

/-- Claim C8 (amended): handling the health route bypasses route dispatch,
token verification and proxying, and its handler probes every configured
backend, reporting healthy exactly when every backend answers 200 and
degraded otherwise with a per-service entry; but it does not bypass the
rate limiter: the middleware's rate-limit check runs on every health
request and a denial answers 429 without probing. -/
theorem health_route_behavior (store : RedisStore) (id : Str) (now : Nat)
    (probe : Str → ProbeOutcome) :
    (handle_health store id now probe).rateLimiterInvoked = true ∧
    (handle_health store id now probe).verifyInvoked = false ∧
    (handle_health store id now probe).proxyInvoked = false ∧
    ((is_allowed rate_limiter store id now).1 = false →
      handle_health store id now probe =
        { statusCode := 429, body := none, rateLimiterInvoked := true,
          verifyInvoked := false, proxyInvoked := false }) ∧
    ((is_allowed rate_limiter store id now).1 = true →
      handle_health store id now probe =
        { statusCode := 200, body := some (health_check probe),
          rateLimiterInvoked := true, verifyInvoked := false,
          proxyInvoked := false }) ∧
    ((health_check probe).status = healthyStr ↔
      ∀ p ∈ SERVICES, ∃ el, probe p.1 = .responds 200 el) ∧
    ((health_check probe).status = healthyStr ∨
      (health_check probe).status = degradedStr) ∧
    (health_check probe).services =
      SERVICES.map (fun p => (p.1, probeEntry (probe p.1))) := by
  have hstat : (health_check probe).status =
      if ((SERVICES.map fun p => (p.1, probeEntry (probe p.1))).all
          fun q => decide (q.2.status = healthyStr)) = true
      then healthyStr else degradedStr := rfl
  have hiff : ((SERVICES.map fun p => (p.1, probeEntry (probe p.1))).all
        fun q => decide (q.2.status = healthyStr)) = true ↔
      ∀ p ∈ SERVICES, ∃ el, probe p.1 = .responds 200 el := by
    rw [List.all_eq_true]
    constructor
    · intro hall p hp
      have := hall _ (List.mem_map.mpr ⟨p, hp, rfl⟩)
      simp only [decide_eq_true_eq] at this
      exact (probeEntry_healthy (probe p.1)).mp this
    · intro hall q hq
      obtain ⟨p, hp, rfl⟩ := List.mem_map.mp hq
      simp only [decide_eq_true_eq]
      exact (probeEntry_healthy (probe p.1)).mpr (hall p hp)
  refine ⟨?_, ?_, ?_, fun h => ?_, fun h => ?_, ?_, ?_, rfl⟩
  · cases h : (is_allowed rate_limiter store id now).1 <;>
      simp [handle_health, h]
  · cases h : (is_allowed rate_limiter store id now).1 <;>
      simp [handle_health, h]
  · cases h : (is_allowed rate_limiter store id now).1 <;>
      simp [handle_health, h]
  · simp [handle_health, h]
  · simp [handle_health, h]
  · rw [hstat]
    by_cases hall : ((SERVICES.map fun p => (p.1, probeEntry (probe p.1))).all
        fun q => decide (q.2.status = healthyStr)) = true
    · rw [if_pos hall]
      exact iff_of_true rfl (hiff.mp hall)
    · rw [if_neg hall]
      exact iff_of_false (by decide) fun hf => hall (hiff.mpr hf)
  · rw [hstat]
    by_cases hall : ((SERVICES.map fun p => (p.1, probeEntry (probe p.1))).all
        fun q => decide (q.2.status = healthyStr)) = true
    · rw [if_pos hall]
      exact Or.inl rfl
    · rw [if_neg hall]
      exact Or.inr rfl

/-- Witness for the amended C8 theorem: an exhausted counter turns a
health request into a 429 without probing, and when every backend answers
200 the aggregate status is healthy. -/
theorem health_route_behavior_witness :
    handle_health exhaustedStore clientC 0 probeAll200 =
      { statusCode := 429, body := none, rateLimiterInvoked := true,
        verifyInvoked := false, proxyInvoked := false } ∧
    (health_check probeAll200).status = healthyStr :=
  ⟨(health_route_behavior exhaustedStore clientC 0 probeAll200).2.2.2.1
      (by decide),
   (health_route_behavior exhaustedStore clientC 0
      probeAll200).2.2.2.2.2.1.mpr (fun p _ => ⟨1, rfl⟩)⟩

end VetGateway
